import Mathlib

/-!
Shallow embedding of the SQL Server → MySQL migration scripts
(`migrar_sqlserver_a_mysql.py` and `actualizar.py`): the type mapping,
DDL synthesis, reconciliation statement builders and the batched
transfer loop, together with theorems about the specified behaviour.
-/

set_option autoImplicit false

namespace Migrate

/-- Column metadata as produced by `fetch_columns_sqlserver`
(`migrar_sqlserver_a_mysql.py`, lines 139-162): name, lowercased type
name, `CHARACTER_MAXIMUM_LENGTH`, `NUMERIC_PRECISION`, `NUMERIC_SCALE`,
nullability, identity flag and raw default expression. -/
structure ColMeta where
  name : String
  type : String
  char_len : Option Int
  num_prec : Option Int
  num_scale : Option Int
  nullable : Bool
  is_identity : Bool
  dflt : Option String
  deriving DecidableEq

/-- The `TYPE_MAP` dictionary (`migrar_sqlserver_a_mysql.py`, lines 91-128),
as an association list in source order. -/
def TYPE_MAP : List (String × String) :=
  [ ("bigint", "BIGINT"),
    ("int", "INT"),
    ("smallint", "SMALLINT"),
    ("tinyint", "TINYINT"),
    ("bit", "TINYINT(1)"),
    ("decimal", "DECIMAL"),
    ("numeric", "DECIMAL"),
    ("money", "DECIMAL(19,4)"),
    ("smallmoney", "DECIMAL(10,4)"),
    ("float", "DOUBLE"),
    ("real", "FLOAT"),
    ("varchar", "VARCHAR"),
    ("nvarchar", "VARCHAR"),
    ("char", "CHAR"),
    ("nchar", "CHAR"),
    ("text", "LONGTEXT"),
    ("ntext", "LONGTEXT"),
    ("date", "DATE"),
    ("datetime", "DATETIME"),
    ("datetime2", "DATETIME"),
    ("smalldatetime", "DATETIME"),
    ("time", "TIME"),
    ("datetimeoffset", "DATETIME"),
    ("binary", "BINARY"),
    ("varbinary", "VARBINARY"),
    ("image", "LONGBLOB"),
    ("uniqueidentifier", "CHAR(36)"),
    ("xml", "LONGTEXT"),
    ("sql_variant", "JSON") ]

/-- `TYPE_MAP.get(t, "TEXT")`: dictionary lookup with the `"TEXT"` fallback. -/
def typeMapGet (t : String) : String :=
  (TYPE_MAP.lookup t).getD "TEXT"

/-- The mapped names that get a `(length)` suffix
(`migrar_sqlserver_a_mysql.py`, line 180). -/
def charTypes : List String := ["VARCHAR", "CHAR", "VARBINARY", "BINARY"]

/-- `col["char_len"] if col["char_len"] and col["char_len"] > 0 else 255`
(line 181): a `None`, zero (falsy) or non-positive declared length becomes
the fixed default width 255. -/
def charLenFor (col : ColMeta) : Int :=
  match col.char_len with
  | some l => if 0 < l then l else 255
  | none => 255

/-- Python `x or d` on an optional integer: `None` and `0` are falsy. -/
def pyOrInt (v : Option Int) (d : Int) : Int :=
  match v with
  | some x => if x = 0 then d else x
  | none => d

/-- `p = col["num_prec"] or 18` (line 184). -/
def precFor (col : ColMeta) : Int := pyOrInt col.num_prec 18

/-- `s = col["num_scale"] or 0` (line 185). -/
def scaleFor (col : ColMeta) : Int := pyOrInt col.num_scale 0

/-- `sqlserver_to_mysql_type` (`migrar_sqlserver_a_mysql.py`, lines 177-187). -/
def sqlserver_to_mysql_type (col : ColMeta) : String :=
  let mapped := typeMapGet col.type
  if mapped ∈ charTypes then
    mapped ++ "(" ++ toString (charLenFor col) ++ ")"
  else if mapped = "DECIMAL" then
    "DECIMAL(" ++ toString (precFor col) ++ "," ++ toString (scaleFor col) ++ ")"
  else
    mapped

/-! ### Python string primitives -/

/-- The whitespace characters stripped by Python `str.strip()` (ASCII range). -/
def isPySpace (c : Char) : Bool :=
  c = ' ' || c = '\t' || c = '\n' || c = '\r' || c = '\x0b' || c = '\x0c'

/-- Remove characters satisfying `p` from both ends, as Python
`str.strip(chars)` does. -/
def stripBoth (p : Char → Bool) (l : List Char) : List Char :=
  ((l.dropWhile p).reverse.dropWhile p).reverse

/-- Python `str.strip()`. -/
def pyStrip (s : String) : String := ⟨stripBoth isPySpace s.data⟩

/-- Python `str.strip("()")`. -/
def pyStripParens (s : String) : String :=
  ⟨stripBoth (fun c => c = '(' || c = ')') s.data⟩

/-- Python `str.lstrip("N")`: drops every leading `N`. -/
def pyLstripN (s : String) : String := ⟨s.data.dropWhile (fun c => c = 'N')⟩

/-- Python `str.strip("\x27")`: drops apostrophes at both ends. -/
def pyStripQuotes (s : String) : String :=
  ⟨stripBoth (fun c => c = '\x27') s.data⟩

/-- Python `str.lower()` (ASCII behaviour). -/
def pyLower (s : String) : String := ⟨s.data.map Char.toLower⟩

/-- Python `sep.join(items)`. -/
def pyJoin (sep : String) : List String → String
  | [] => ""
  | [x] => x
  | x :: y :: xs => x ++ sep ++ pyJoin sep (y :: xs)

/-- One left-to-right non-overlapping replacement pass of Python
`str.replace`, on character lists, with fuel bounded by the input length. -/
def replaceAux (pat repl : List Char) : Nat → List Char → List Char
  | 0, l => l
  | _ + 1, [] => []
  | fuel + 1, c :: rest =>
    if pat.isPrefixOf (c :: rest) then
      repl ++ replaceAux pat repl fuel ((c :: rest).drop pat.length)
    else
      c :: replaceAux pat repl fuel rest

/-- Python `s.replace(pat, repl)` for a non-empty pattern. -/
def pyReplace (s pat repl : String) : String :=
  ⟨replaceAux pat.data repl.data s.data.length s.data⟩

/-- `d.replace("\\", "\\\\").replace("\x27", "\\\x27")`
(`migrar_sqlserver_a_mysql.py`, line 211). -/
def pyEscape (s : String) : String :=
  pyReplace (pyReplace s "\\" "\\\\") "\x27" "\\\x27"

/-! ### Python `float()` acceptance

`build_create_table_mysql` decides whether a default expression is numeric
by calling `float(d)` and catching the exception.  `pyFloatParses` models
which strings CPython `float` accepts: optional surrounding whitespace,
optional sign, then `inf`/`infinity`/`nan` (case-insensitive) or a decimal
number with optional fraction and exponent, where digit groups may contain
single underscores between digits. -/

/-- Consume `(digit | "_" digit)*` after an initial digit. -/
def munchDigits : List Char → List Char
  | [] => []
  | c :: rest =>
    if c.isDigit then munchDigits rest
    else if c = '_' then
      match rest with
      | [] => c :: rest
      | d :: rest2 => if d.isDigit then munchDigits rest2 else c :: rest
    else c :: rest

/-- Try to consume one Python digit group (`digit (("_")? digit)*`):
returns whether a group was consumed and the remaining input. -/
def takeDigitGroup (l : List Char) : Bool × List Char :=
  match l with
  | [] => (false, [])
  | c :: rest => if c.isDigit then (true, munchDigits rest) else (false, l)

/-- Accept an optional exponent part and then end of input. -/
def floatExpPart (l : List Char) : Bool :=
  match l with
  | [] => true
  | c :: rest =>
    if c = 'e' || c = 'E' then
      let rest2 :=
        match rest with
        | s :: r => if s = '+' || s = '-' then r else rest
        | [] => rest
      let (ok, l2) := takeDigitGroup rest2
      ok && l2.isEmpty
    else false

/-- Accept `digitpart? ("." digitpart?)? exponent?` with at least one
mantissa digit, then end of input. -/
def floatNumber (l : List Char) : Bool :=
  let (okInt, l1) := takeDigitGroup l
  match l1 with
  | '.' :: r =>
    let (okFrac, l2) := takeDigitGroup r
    (okInt || okFrac) && floatExpPart l2
  | _ => okInt && floatExpPart l1

/-- Does CPython `float(s)` succeed? -/
def pyFloatParses (s : String) : Bool :=
  let l := stripBoth isPySpace s.data
  let l :=
    match l with
    | c :: r => if c = '+' || c = '-' then r else l
    | [] => l
  let low := l.map Char.toLower
  if low = "inf".data || low = "infinity".data || low = "nan".data then true
  else floatNumber l

/-! ### DDL synthesis (`build_create_table_mysql`, lines 189-217) -/

/-- The current-timestamp spellings recognized at line 202 (compared
against the lowercased, paren-stripped default expression). -/
def tsSpellings : List String :=
  ["getdate", "getdate()", "sysdatetime()", "current_timestamp"]

/-- The `newid` spellings recognized at line 204. -/
def newidSpellings : List String := ["newid", "newid()"]

/-- The `DEFAULT ...` fragment appended to a column definition by
`build_create_table_mysql` (lines 199-212); `""` when no DEFAULT clause
is emitted.  A `None` or empty default is falsy and produces nothing;
otherwise the expression is whitespace- and paren-stripped, rewritten to
`CURRENT_TIMESTAMP` for the recognized timestamp spellings, dropped for
`newid`, passed through verbatim when `float()` accepts it, and emitted
as an escaped single-quoted literal otherwise. -/
def defaultClause (dflt : Option String) : String :=
  match dflt with
  | none => ""
  | some raw =>
    if raw = "" then ""
    else
      let d := pyStripParens (pyStrip raw)
      if pyLower d ∈ tsSpellings then " DEFAULT CURRENT_TIMESTAMP"
      else if pyLower d ∈ newidSpellings then ""
      else if pyFloatParses d then " DEFAULT " ++ d
      else " DEFAULT \x27" ++ pyEscape (pyStripQuotes (pyLstripN d)) ++ "\x27"

/-- One column definition inside the CREATE TABLE statement
(lines 191-213). -/
def colDef (col : ColMeta) : String :=
  let base := "`" ++ col.name ++ "` " ++ sqlserver_to_mysql_type col
  let base := if col.is_identity then base ++ " AUTO_INCREMENT" else base
  let base :=
    if !col.nullable || col.is_identity then base ++ " NOT NULL"
    else base ++ " NULL"
  base ++ defaultClause col.dflt

/-- `build_create_table_mysql` (lines 189-217). -/
def build_create_table_mysql (table : String) (columns : List ColMeta)
    (pk_cols : List String) : String :=
  let parts := columns.map colDef
  let parts :=
    if pk_cols ≠ [] then
      parts ++ ["PRIMARY KEY (" ++
        pyJoin ", " (pk_cols.map (fun c => "`" ++ c ++ "`")) ++ ")"]
    else parts
  "CREATE TABLE IF NOT EXISTS `" ++ table ++ "` (\n  " ++
    pyJoin ",\n  " parts ++
    "\n) ENGINE=InnoDB DEFAULT CHARSET=utf8mb4;"

/-! ### Batched transfer loop

`copy_table` (`migrar_sqlserver_a_mysql.py`, lines 255-265), `update_only`
(`actualizar.py`, lines 167-182) and `upsert_mode` (`actualizar.py`, lines
217-226) all run the same loop: `rows = cur.fetchmany(batch_size)`, break
when the fetch returns no rows, otherwise `executemany` the batch, commit,
and add the batch length to the running total.  `fetchmany b` on a cursor
holding `rows` yields `rows.take b`; the loop is embedded with fuel
`rows.length`, which is enough fuel for every batch size. -/

/-- What one run of the transfer loop did: the batches passed to
`executemany` in order, the number of commits, and the reported total. -/
structure LoopResult (α : Type) where
  batches : List (List α)
  commits : Nat
  total : Nat
  deriving DecidableEq

/-- The transfer loop with explicit fuel. -/
def copyLoopAux {α : Type} (b : Nat) : Nat → List α → LoopResult α
  | 0, _ => ⟨[], 0, 0⟩
  | fuel + 1, rows =>
    if (rows.take b).isEmpty then ⟨[], 0, 0⟩
    else
      let r := copyLoopAux b fuel (rows.drop b)
      ⟨rows.take b :: r.batches, r.commits + 1, r.total + (rows.take b).length⟩

/-- The transfer loop over a source holding `rows`, with batch size `b`. -/
def copyLoop {α : Type} (b : Nat) (rows : List α) : LoopResult α :=
  copyLoopAux b rows.length rows

/-- The batch sizes the loop produces for an input of length `n`,
with the same fuel structure as `copyLoopAux`. -/
def chunkSizesAux (b : Nat) : Nat → Nat → List Nat
  | 0, _ => []
  | fuel + 1, n =>
    if b = 0 ∨ n = 0 then []
    else min b n :: chunkSizesAux b fuel (n - b)

/-- Batch sizes for `n` rows at batch size `b`. -/
def chunkSizes (b n : Nat) : List Nat := chunkSizesAux b n n

/-! ### Reconciliation statement builders (`actualizar.py`) -/

/-- `[c for c in upd_cols if c not in pk_cols]` (`actualizar.py`, lines
153 and 197): the user-selected columns with key columns removed. -/
def nonPkCols (pk upd : List String) : List String :=
  upd.filter (fun c => decide (c ∉ pk))

/-- `set_clause` of `update_only` (line 163), built over the selection
with key columns removed. -/
def set_clause (pk upd : List String) : String :=
  pyJoin ", " ((nonPkCols pk upd).map (fun c => "`" ++ c ++ "`=%s"))

/-- `where_pred` of `update_only` (line 164), built over the key columns. -/
def where_pred (pk : List String) : String :=
  pyJoin " AND " (pk.map (fun c => "`" ++ c ++ "`=%s"))

/-- `upd_sql` of `update_only` (line 165). -/
def upd_sql (table : String) (pk upd : List String) : String :=
  "UPDATE `" ++ table ++ "` SET " ++ set_clause pk upd ++
    " WHERE " ++ where_pred pk

/-- The SQL Server column list fetched by `update_only` (line 158):
key columns first, then the filtered update columns. -/
def updateOnlyFetch (pk upd : List String) : List String :=
  pk ++ nonPkCols pk upd

/-- The UPDATE statement produced by `update_only` (lines 148-165):
`Except.error` for the no-primary-key `sys.exit(1)`, `Except.ok none`
for the early return when every selected column was a key column, and
`Except.ok (some sql)` otherwise. -/
def update_only_sql (table : String) (pk upd : List String) :
    Except String (Option String) :=
  if pk = [] then .error "UPDATE-only requiere columnas clave"
  else if nonPkCols pk upd = [] then .ok none
  else .ok (some (upd_sql table pk upd))

/-- `insert_cols = pk_cols + non_pk_upd` of `upsert_mode` (line 198). -/
def insertCols (pk upd : List String) : List String :=
  pk ++ nonPkCols pk upd

/-- `', '.join(f'`{c}`' for c in cols)`. -/
def identJoin (cols : List String) : String :=
  pyJoin ", " (cols.map (fun c => "`" ++ c ++ "`"))

/-- `', '.join(['%s'] * n)`. -/
def placeholders (n : Nat) : String :=
  pyJoin ", " (List.replicate n "%s")

/-- The `update_set` string of `upsert_mode` (line 210). -/
def update_set (pk upd : List String) : String :=
  pyJoin ", " ((nonPkCols pk upd).map
    (fun c => "`" ++ c ++ "`=VALUES(`" ++ c ++ "`)"))

/-- The `ON DUPLICATE KEY UPDATE` statement of `upsert_mode` (line 212). -/
def onDupSql (table : String) (pk upd : List String) : String :=
  "INSERT INTO `" ++ table ++ "` (" ++ identJoin (insertCols pk upd) ++
    ") VALUES (" ++ placeholders (insertCols pk upd).length ++
    ") ON DUPLICATE KEY UPDATE " ++ update_set pk upd

/-- The `INSERT IGNORE` statement of `upsert_mode` (line 215), over the
given insert columns. -/
def insertIgnoreSql (table : String) (cols : List String) : String :=
  "INSERT IGNORE INTO `" ++ table ++ "` (" ++ identJoin cols ++
    ") VALUES (" ++ placeholders cols.length ++ ")"

/-- The statement produced by `upsert_mode` (lines 192-215):
`Except.error` for the no-primary-key `sys.exit(1)`, `Except.ok none`
for the early return on an empty insert-column list, and otherwise the
`ON DUPLICATE KEY UPDATE` statement when `update_set` is non-empty
(Python string truthiness), else the `INSERT IGNORE` statement. -/
def upsert_sql (table : String) (pk upd : List String) :
    Except String (Option String) :=
  if pk = [] then .error "UPSERT requiere columnas clave"
  else if insertCols pk upd = [] then .ok none
  else if update_set pk upd ≠ "" then .ok (some (onDupSql table pk upd))
  else .ok (some (insertIgnoreSql table (insertCols pk upd)))

/-! ### Column selection in `copy_table` (`migrar_sqlserver_a_mysql.py`,
lines 234-249) -/

/-- `cols = [c for c in all_cols_meta if c["name"] in only_cols]` when a
subset is given (line 235), all columns otherwise. -/
def copyFetchCols (metas : List ColMeta) (only : Option (List String)) :
    List ColMeta :=
  match only with
  | some oc => metas.filter (fun c => decide (c.name ∈ oc))
  | none => metas

/-- `pk = [c for c in pk if c in only_cols]` when a subset is given
(line 236). -/
def copyPk (pk : List String) (only : Option (List String)) : List String :=
  match only with
  | some oc => pk.filter (fun c => decide (c ∈ oc))
  | none => pk

/-- `col_names` (line 246): the names actually selected from SQL Server. -/
def copyFetchNames (metas : List ColMeta) (only : Option (List String)) :
    List String :=
  (copyFetchCols metas only).map ColMeta.name

/-! ### Bind-order reshaping in `update_only` (`actualizar.py`,
lines 172-178) -/

/-- One fetched row `r = (pk1, ..., pkk, col1, ...)` rebuilt as
`tuple(list(col_vals) + list(pk_vals))`. -/
def bindRow {α : Type} (k : Nat) (r : List α) : List α :=
  r.drop k ++ r.take k

/-- `data`: the reordered copies of every row of the fetched batch. -/
def bindBatch {α : Type} (k : Nat) (rows : List (List α)) : List (List α) :=
  rows.map (bindRow k)

/-! ### Query/exit trace of `actualizar.main` in UPDATE mode
(`actualizar.py`, lines 290-340) -/

/-- The externally visible events of a run: queries against SQL Server,
the primary-key metadata query against MySQL, statement execution and
commit against MySQL, and a `sys.exit(1)` validation failure. -/
inductive Ev where
  | srcColumnsQuery
  | srcPkQuery
  | srcDataQuery
  | tgtPkMetaQuery
  | tgtExecute
  | tgtCommit
  | exitValidation
  deriving DecidableEq

/-- The events of `update_only` (lines 145-182), given the detected
primary key, the selected columns and the number of non-empty batches
the data cursor yields. -/
def update_only_trace (pk upd : List String) (nBatches : Nat) : List Ev :=
  if pk = [] then [.exitValidation]
  else if nonPkCols pk upd = [] then []
  else .srcDataQuery ::
    (List.replicate nBatches [Ev.tgtExecute, Ev.tgtCommit]).flatten

/-- The events of `main` in UPDATE mode after both connections are up
(lines 290-340): fetch source columns, fetch the source primary key,
query the target primary key metadata (line 313, unconditional), then
either exit with the missing-primary-key validation error (lines
336-338) or run `update_only`. -/
def mainUpdateTrace (pkSql updCols : List String) (nBatches : Nat) :
    List Ev :=
  [Ev.srcColumnsQuery, Ev.srcPkQuery, Ev.tgtPkMetaQuery] ++
    (if pkSql = [] then [Ev.exitValidation]
     else update_only_trace pkSql updCols nBatches)

/-! ### Lemmas about the transfer loop -/

theorem inf_eq_min_nat (a b : Nat) : a ⊓ b = min a b := rfl

theorem copyLoopAux_commits {α : Type} (b : Nat) :
    ∀ (fuel : Nat) (rows : List α),
      (copyLoopAux b fuel rows).commits =
        (copyLoopAux b fuel rows).batches.length := by
  intro fuel
  induction fuel with
  | zero => intro rows; rfl
  | succ n ih =>
    intro rows
    by_cases h : (rows.take b).isEmpty
    · simp [copyLoopAux, h]
    · simp [copyLoopAux, h, ih]

theorem copyLoopAux_total {α : Type} (b : Nat) (hb : 0 < b) :
    ∀ (fuel : Nat) (rows : List α), rows.length ≤ fuel →
      (copyLoopAux b fuel rows).total = rows.length := by
  intro fuel
  induction fuel with
  | zero =>
    intro rows h
    have hnil : rows = [] := List.eq_nil_of_length_eq_zero (Nat.le_zero.mp h)
    subst hnil; rfl
  | succ n ih =>
    intro rows h
    by_cases hemp : (rows.take b).isEmpty
    · have htake : rows.take b = [] := List.isEmpty_iff.mp hemp
      rcases List.take_eq_nil_iff.mp htake with h0 | hnil
      · omega
      · subst hnil; simp [copyLoopAux]
    · have htake : rows.take b ≠ [] := fun e => hemp (by simp [e])
      have hne : rows ≠ [] := by
        intro e; exact htake (by simp [e])
      have hlen : 0 < rows.length := List.length_pos.mpr hne
      have hdrop : (rows.drop b).length ≤ n := by
        rw [List.length_drop]; omega
      simp only [copyLoopAux, hemp, Bool.false_eq_true, if_false]
      rw [ih (rows.drop b) hdrop, List.length_take, List.length_drop,
        inf_eq_min_nat]
      omega

theorem copyLoopAux_flatten {α : Type} (b : Nat) (hb : 0 < b) :
    ∀ (fuel : Nat) (rows : List α), rows.length ≤ fuel →
      (copyLoopAux b fuel rows).batches.flatten = rows := by
  intro fuel
  induction fuel with
  | zero =>
    intro rows h
    have hnil : rows = [] := List.eq_nil_of_length_eq_zero (Nat.le_zero.mp h)
    subst hnil; rfl
  | succ n ih =>
    intro rows h
    by_cases hemp : (rows.take b).isEmpty
    · have htake : rows.take b = [] := List.isEmpty_iff.mp hemp
      rcases List.take_eq_nil_iff.mp htake with h0 | hnil
      · omega
      · subst hnil; simp [copyLoopAux]
    · have htake : rows.take b ≠ [] := fun e => hemp (by simp [e])
      have hne : rows ≠ [] := by
        intro e; exact htake (by simp [e])
      have hlen : 0 < rows.length := List.length_pos.mpr hne
      have hdrop : (rows.drop b).length ≤ n := by
        rw [List.length_drop]; omega
      simp only [copyLoopAux, hemp, Bool.false_eq_true, if_false,
        List.flatten_cons]
      rw [ih (rows.drop b) hdrop, List.take_append_drop]

theorem copyLoopAux_sizes {α : Type} (b : Nat) :
    ∀ (fuel : Nat) (rows : List α),
      (copyLoopAux b fuel rows).batches.map List.length =
        chunkSizesAux b fuel rows.length := by
  intro fuel
  induction fuel with
  | zero => intro rows; rfl
  | succ n ih =>
    intro rows
    by_cases hemp : (rows.take b).isEmpty
    · have htake : rows.take b = [] := List.isEmpty_iff.mp hemp
      have hcond : b = 0 ∨ rows.length = 0 := by
        rcases List.take_eq_nil_iff.mp htake with h0 | hnil
        · exact Or.inl h0
        · exact Or.inr (by simp [hnil])
      simp only [copyLoopAux, hemp, if_true, chunkSizesAux, if_pos hcond,
        List.map_nil]
    · have htake : rows.take b ≠ [] := fun e => hemp (by simp [e])
      have hcond : ¬(b = 0 ∨ rows.length = 0) := by
        rintro (h0 | h0)
        · exact htake (List.take_eq_nil_iff.mpr (Or.inl h0))
        · exact htake (List.take_eq_nil_iff.mpr
            (Or.inr (List.eq_nil_of_length_eq_zero h0)))
      simp only [copyLoopAux, hemp, Bool.false_eq_true, if_false,
        chunkSizesAux, hcond, List.map_cons]
      rw [ih (rows.drop b), List.length_take, List.length_drop,
        inf_eq_min_nat]

theorem copyLoopAux_batch_bound {α : Type} (b : Nat) :
    ∀ (fuel : Nat) (rows : List α),
      ∀ batch ∈ (copyLoopAux b fuel rows).batches,
        batch ≠ [] ∧ batch.length ≤ b := by
  intro fuel
  induction fuel with
  | zero => intro rows batch hmem; simp [copyLoopAux] at hmem
  | succ n ih =>
    intro rows batch hmem
    by_cases hemp : (rows.take b).isEmpty
    · simp [copyLoopAux, hemp] at hmem
    · simp only [copyLoopAux, hemp, Bool.false_eq_true, if_false,
        List.mem_cons] at hmem
      rcases hmem with hmem | hmem
      · subst hmem
        refine ⟨fun e => hemp (by simp [e]), ?_⟩
        rw [List.length_take, inf_eq_min_nat]
        exact Nat.min_le_left _ _
      · exact ih (rows.drop b) batch hmem

/-- C1: over a source of `n` rows with batch size `b > 0`, the transfer
loop of `copy_table` / `upsert_mode` / `update_only` pulls at most `b`
rows per fetch, stops exactly when a fetch is empty (every executed batch
is non-empty and the batches concatenate back to the full input), does
one `executemany` and one commit per non-empty fetch, and reports a total
equal to `n`; in particular 25,000 rows at batch size 10,000 give exactly
the batches [10000, 10000, 5000] and a reported total of 25,000. -/
theorem batch_loop_spec {α : Type} (b : Nat) (rows : List α) (hb : 0 < b) :
    (copyLoop b rows).total = rows.length
    ∧ (copyLoop b rows).commits = (copyLoop b rows).batches.length
    ∧ (copyLoop b rows).batches.flatten = rows
    ∧ (∀ batch ∈ (copyLoop b rows).batches, batch ≠ [] ∧ batch.length ≤ b)
    ∧ (copyLoop b rows).batches.map List.length = chunkSizes b rows.length
    ∧ (b = 10000 → rows.length = 25000 →
        (copyLoop b rows).batches.map List.length = [10000, 10000, 5000]
        ∧ (copyLoop b rows).total = 25000) := by
  refine ⟨copyLoopAux_total b hb rows.length rows (Nat.le_refl _),
    copyLoopAux_commits b rows.length rows,
    copyLoopAux_flatten b hb rows.length rows (Nat.le_refl _),
    copyLoopAux_batch_bound b rows.length rows,
    copyLoopAux_sizes b rows.length rows, ?_⟩
  intro hb10 hn
  constructor
  · rw [copyLoop, copyLoopAux_sizes b rows.length rows, hb10, hn]
    show chunkSizes 10000 25000 = [10000, 10000, 5000]
    decide
  · rw [copyLoop, copyLoopAux_total b hb rows.length rows (Nat.le_refl _), hn]

/-- Witness for `batch_loop_spec` at batch size 2 over five rows. -/
theorem batch_loop_spec_witness :
    0 < 2 ∧ (copyLoop 2 [1, 2, 3, 4, 5]).total = [1, 2, 3, 4, 5].length :=
  ⟨by decide, (batch_loop_spec 2 [1, 2, 3, 4, 5] (by decide)).1⟩

/-- C2: the type mapping is total and deterministic over column
descriptors: an unmapped source type name falls back to `TEXT`, a mapped
name yields its `TYPE_MAP` entry (with the length or precision/scale
suffix for the parametric entries), and the result depends only on the
type name, character length, precision and scale. -/
theorem type_map_total_fallback (col : ColMeta) :
    (TYPE_MAP.lookup col.type = none → sqlserver_to_mysql_type col = "TEXT")
    ∧ (∀ m, TYPE_MAP.lookup col.type = some m → m ∉ charTypes →
        m ≠ "DECIMAL" → sqlserver_to_mysql_type col = m)
    ∧ (∀ m, TYPE_MAP.lookup col.type = some m → m ∈ charTypes →
        sqlserver_to_mysql_type col =
          m ++ "(" ++ toString (charLenFor col) ++ ")")
    ∧ (∀ m, TYPE_MAP.lookup col.type = some m → m = "DECIMAL" →
        sqlserver_to_mysql_type col =
          "DECIMAL(" ++ toString (precFor col) ++ "," ++
            toString (scaleFor col) ++ ")")
    ∧ (∀ col2 : ColMeta, col2.type = col.type → col2.char_len = col.char_len →
        col2.num_prec = col.num_prec → col2.num_scale = col.num_scale →
        sqlserver_to_mysql_type col2 = sqlserver_to_mysql_type col) := by
  refine ⟨?_, ?_, ?_, ?_, ?_⟩
  · intro h
    simp [sqlserver_to_mysql_type, typeMapGet, h, charTypes]
  · intro m hm hnc hnd
    simp [sqlserver_to_mysql_type, typeMapGet, hm, hnc, hnd]
  · intro m hm hmem
    simp [sqlserver_to_mysql_type, typeMapGet, hm, hmem]
  · intro m hm hd
    subst hd
    have h1 : typeMapGet col.type = "DECIMAL" := by
      simp [typeMapGet, hm]
    have h2 : ¬ typeMapGet col.type ∈ charTypes := by
      rw [h1]; decide
    simp only [sqlserver_to_mysql_type]
    rw [if_neg h2, if_pos h1]
  · intro col2 h1 h2 h3 h4
    simp only [sqlserver_to_mysql_type, typeMapGet, charLenFor, precFor,
      scaleFor, pyOrInt, h1, h2, h3, h4]

/-- Witness for `type_map_total_fallback`: a source type name outside the
mapping table falls back to `TEXT`. -/
theorem type_map_total_fallback_witness :
    TYPE_MAP.lookup "geography" = none
    ∧ sqlserver_to_mysql_type
        ⟨"g", "geography", none, none, none, true, false, none⟩ = "TEXT" :=
  ⟨by decide,
    (type_map_total_fallback
      ⟨"g", "geography", none, none, none, true, false, none⟩).1 (by decide)⟩

/-- C3: in UpdateOnly mode no primary-key column survives into the SET
column list, for every key list and every user selection, and the UPDATE
statement is built with its SET clause over exactly that filtered list
and its WHERE predicate over exactly the key columns. -/
theorem update_set_excludes_keys (table : String) (pk upd : List String)
    (c : String) (hc : c ∈ pk) :
    c ∉ nonPkCols pk upd
    ∧ set_clause pk upd =
        pyJoin ", " ((nonPkCols pk upd).map (fun x => "`" ++ x ++ "`=%s"))
    ∧ where_pred pk = pyJoin " AND " (pk.map (fun x => "`" ++ x ++ "`=%s"))
    ∧ upd_sql table pk upd =
        "UPDATE `" ++ table ++ "` SET " ++ set_clause pk upd ++
          " WHERE " ++ where_pred pk := by
  refine ⟨?_, rfl, rfl, rfl⟩
  intro hmem
  rcases List.mem_filter.mp hmem with ⟨-, hdec⟩
  exact (of_decide_eq_true hdec) hc

/-- Witness for `update_set_excludes_keys`: selecting the key column
`id` still keeps it out of the SET column list. -/
theorem update_set_excludes_keys_witness :
    "id" ∈ (["id"] : List String)
    ∧ "id" ∉ nonPkCols ["id"] ["id", "a"] :=
  ⟨by decide,
    (update_set_excludes_keys "t" ["id"] ["id", "a"] "id" (by decide)).1⟩

/-- A Python join of a non-empty list of non-empty strings is non-empty. -/
theorem pyJoin_ne_empty (sep x : String) (l : List String)
    (hx : x.data ≠ []) : pyJoin sep (x :: l) ≠ "" := by
  cases l with
  | nil =>
    intro e
    exact hx (by rw [show x = "" from e])
  | cons y ys =>
    intro e
    have hd : (x ++ sep ++ pyJoin sep (y :: ys)).data = [] := by
      rw [show (x ++ sep ++ pyJoin sep (y :: ys)) = "" from e]
    rw [String.data_append, String.data_append] at hd
    exact hx (List.append_eq_nil.mp (List.append_eq_nil.mp hd).1).1

/-- C4: in Upsert mode with a non-empty key, if removing key columns
from the selection leaves nothing, `upsert_mode` degrades to an
`INSERT IGNORE` over exactly the key columns instead of failing, and
with at least one non-key column left it emits the
`ON DUPLICATE KEY UPDATE` statement over exactly the non-key columns. -/
theorem upsert_no_nonkey_fallback (table : String) (pk upd : List String)
    (hpk : pk ≠ []) :
    (nonPkCols pk upd = [] →
      upsert_sql table pk upd = .ok (some (insertIgnoreSql table pk)))
    ∧ (nonPkCols pk upd ≠ [] →
      upsert_sql table pk upd = .ok (some (onDupSql table pk upd))) := by
  constructor
  · intro h0
    have hic : insertCols pk upd = pk := by
      rw [insertCols, h0, List.append_nil]
    have hus : update_set pk upd = "" := by
      rw [update_set, h0]; rfl
    rw [upsert_sql, if_neg hpk, if_neg (show ¬insertCols pk upd = [] by
      rw [hic]; exact hpk)]
    rw [if_neg (show ¬update_set pk upd ≠ "" by simp [hus]), hic]
  · intro hne
    obtain ⟨c, rest, hc⟩ : ∃ c rest, nonPkCols pk upd = c :: rest := by
      cases hcc : nonPkCols pk upd with
      | nil => exact absurd hcc hne
      | cons c rest => exact ⟨c, rest, rfl⟩
    have hic : ¬insertCols pk upd = [] := by
      rw [insertCols]; intro e; exact hpk (List.append_eq_nil.mp e).1
    have hus : update_set pk upd ≠ "" := by
      rw [update_set, hc, List.map_cons]
      apply pyJoin_ne_empty
      simp [String.data_append]
    rw [upsert_sql, if_neg hpk, if_neg hic, if_pos hus]

/-- Witness for `upsert_no_nonkey_fallback`: selecting only the key
column `id` degrades to `INSERT IGNORE` over the key columns. -/
theorem upsert_no_nonkey_fallback_witness :
    (["id"] : List String) ≠ []
    ∧ nonPkCols ["id"] ["id"] = []
    ∧ upsert_sql "t" ["id"] ["id"] =
        .ok (some (insertIgnoreSql "t" ["id"])) :=
  ⟨by decide, by decide,
    (upsert_no_nonkey_fallback "t" ["id"] ["id"] (by decide)).1 (by decide)⟩

/-- C8: in UpdateOnly mode a fetched row laid out key-columns-first is
rebound as the update-column values followed by the key-column values,
and the whole batch is reshaped by building a new tuple per row from the
unmodified fetched rows. -/
theorem bind_reorder {α : Type} (k : Nat) (keyVals updVals : List α)
    (rows : List (List α)) (hk : keyVals.length = k) :
    bindRow k (keyVals ++ updVals) = updVals ++ keyVals
    ∧ bindBatch k rows = rows.map (bindRow k) := by
  constructor
  · subst hk
    rw [bindRow, List.drop_left, List.take_left]
  · rfl

/-- Witness for `bind_reorder` at a two-column key. -/
theorem bind_reorder_witness :
    ([10, 20] : List Nat).length = 2
    ∧ bindRow 2 ([10, 20] ++ [30]) = [30] ++ [10, 20] :=
  ⟨by decide, (bind_reorder 2 [10, 20] [30] [] (by decide)).1⟩

/-- C9 counterexample: a decimal column whose catalog precision is
present but `0` is rendered with the default precision 18, not with its
source precision, because `col["num_prec"] or 18` treats `0` as absent. -/
theorem type_sizing_counterexample :
    (⟨"v", "decimal", none, some 0, some 5, true, false, none⟩ :
        ColMeta).num_prec = some 0
    ∧ sqlserver_to_mysql_type
        ⟨"v", "decimal", none, some 0, some 5, true, false, none⟩ =
        "DECIMAL(18,5)"
    ∧ "DECIMAL(18,5)" ≠ "DECIMAL(0,5)" :=
  ⟨rfl, by decide, by decide⟩

/-- C9 amended: for character/binary columns the rendered length is the
source length when positive and 255 otherwise (including the `-1` of max
types); for decimal/numeric columns the rendered precision is the source
precision when present and non-zero, else 18, and the rendered scale is
the source scale when present and non-zero, else 0 (a present zero scale
coincides with the default). -/
theorem type_sizing_amended (col : ColMeta) :
    (typeMapGet col.type ∈ charTypes →
      sqlserver_to_mysql_type col =
        typeMapGet col.type ++ "(" ++ toString (charLenFor col) ++ ")"
      ∧ (∀ l : Int, col.char_len = some l → 0 < l → charLenFor col = l)
      ∧ (∀ l : Int, col.char_len = some l → l ≤ 0 → charLenFor col = 255)
      ∧ (col.char_len = none → charLenFor col = 255))
    ∧ (typeMapGet col.type = "DECIMAL" →
      sqlserver_to_mysql_type col =
        "DECIMAL(" ++ toString (precFor col) ++ "," ++
          toString (scaleFor col) ++ ")"
      ∧ (∀ p : Int, col.num_prec = some p → p ≠ 0 → precFor col = p)
      ∧ ((col.num_prec = none ∨ col.num_prec = some 0) → precFor col = 18)
      ∧ (∀ s : Int, col.num_scale = some s → s ≠ 0 → scaleFor col = s)
      ∧ ((col.num_scale = none ∨ col.num_scale = some 0) →
          scaleFor col = 0)) := by
  constructor
  · intro hmem
    refine ⟨?_, ?_, ?_, ?_⟩
    · simp only [sqlserver_to_mysql_type]
      rw [if_pos hmem]
    · intro l hl hpos
      simp [charLenFor, hl, hpos]
    · intro l hl hle
      simp [charLenFor, hl, Int.not_lt.mpr hle]
    · intro hl
      simp [charLenFor, hl]
  · intro hdec
    have h1 : ¬ typeMapGet col.type ∈ charTypes := by
      rw [hdec]; decide
    refine ⟨?_, ?_, ?_, ?_, ?_⟩
    · simp only [sqlserver_to_mysql_type]
      rw [if_neg h1, if_pos hdec]
    · intro p hp hne
      simp [precFor, pyOrInt, hp, hne]
    · rintro (hp | hp) <;> simp [precFor, pyOrInt, hp]
    · intro s hs hne
      simp [scaleFor, pyOrInt, hs, hne]
    · rintro (hs | hs) <;> simp [scaleFor, pyOrInt, hs]

/-- Witness for `type_sizing_amended` at a `varchar(50)` column. -/
theorem type_sizing_amended_witness :
    typeMapGet "varchar" ∈ charTypes
    ∧ sqlserver_to_mysql_type
        ⟨"c", "varchar", some 50, none, none, true, false, none⟩ =
      typeMapGet "varchar" ++ "(" ++
        toString (charLenFor
          ⟨"c", "varchar", some 50, none, none, true, false, none⟩) ++ ")" :=
  ⟨by decide,
    ((type_sizing_amended
      ⟨"c", "varchar", some 50, none, none, true, false, none⟩).1
      (by decide)).1⟩

/-- C5 counterexample: in create+copy mode (`copy_table`), with source
columns `id` (the primary key) and `status` and the user selection
`["status"]`, the fetched column list is `["status"]` only — the omitted
key column `id` is not fetched, and it is even dropped from the primary
key passed to the DDL — contradicting
`fetch = key columns ∪ user-selected non-key columns` for Create mode. -/
theorem fetch_columns_counterexample :
    copyFetchNames
      [⟨"id", "int", none, some 10, some 0, false, true, none⟩,
       ⟨"status", "varchar", some 20, none, none, true, false, none⟩]
      (some ["status"]) = ["status"]
    ∧ "id" ∈ (["id"] : List String)
    ∧ "id" ∉ copyFetchNames
      [⟨"id", "int", none, some 10, some 0, false, true, none⟩,
       ⟨"status", "varchar", some 20, none, none, true, false, none⟩]
      (some ["status"])
    ∧ copyPk ["id"] (some ["status"]) = [] :=
  ⟨by decide, by decide, by decide, by decide⟩

/-- C5 amended: in UpdateOnly mode the fetched list is the key columns
followed by the selected non-key columns, so every key column is fetched
even when omitted from the selection; in Create mode (`copy_table`) the
fetched list contains exactly the selected columns, a name outside the
selection (key column or not) is never fetched, and an unselected key
column is also dropped from the primary-key clause. -/
theorem fetch_columns_amended (pk upd : List String) (metas : List ColMeta)
    (oc : List String) :
    updateOnlyFetch pk upd = pk ++ nonPkCols pk upd
    ∧ (∀ c ∈ pk, c ∈ updateOnlyFetch pk upd)
    ∧ copyFetchNames metas (some oc) =
        (metas.filter (fun c => decide (c.name ∈ oc))).map ColMeta.name
    ∧ (∀ n : String, n ∉ oc → n ∉ copyFetchNames metas (some oc))
    ∧ (∀ c ∈ pk, c ∉ oc → c ∉ copyPk pk (some oc)) := by
  refine ⟨rfl, ?_, rfl, ?_, ?_⟩
  · intro c hc
    exact List.mem_append_left _ hc
  · intro n hn hmem
    rcases List.mem_map.mp hmem with ⟨m, hm, he⟩
    rcases List.mem_filter.mp hm with ⟨-, hdec⟩
    exact hn (he ▸ of_decide_eq_true hdec)
  · intro c hc hno hmem
    rcases List.mem_filter.mp hmem with ⟨-, hdec⟩
    exact hno (of_decide_eq_true hdec)

/-- Witness for `fetch_columns_amended`: the key column `id` is fetched
by `update_only` although the user selected only `status`. -/
theorem fetch_columns_amended_witness :
    "id" ∈ (["id"] : List String)
    ∧ "id" ∈ updateOnlyFetch ["id"] ["status"] :=
  ⟨by decide,
    (fetch_columns_amended ["id"] ["status"] [] []).2.1 "id" (by decide)⟩

/-- Following the claim wording only (not the source): a raw default
expression counts as a quoted string literal when, after whitespace and
paren stripping and removing an `N` national-string marker, it starts
and ends with an apostrophe. -/
def claimStringLiteralDefault (raw : String) : Bool :=
  let d := (pyLstripN (pyStripParens (pyStrip raw))).data
  decide (2 ≤ d.length) && d.head? == some '\x27' && d.getLast? == some '\x27'

/-- C6 counterexample: the default expression `(getutcdate())` is none of
a recognized timestamp spelling, a newid spelling, a numeric literal or a
string literal, yet the synthesized DDL still carries a DEFAULT clause
for the column: the expression is emitted as the quoted string literal
`DEFAULT 'getutcdate'`, not dropped. -/
theorem default_drop_counterexample :
    pyLower (pyStripParens (pyStrip "(getutcdate())")) ∉ tsSpellings
    ∧ pyLower (pyStripParens (pyStrip "(getutcdate())")) ∉ newidSpellings
    ∧ pyFloatParses (pyStripParens (pyStrip "(getutcdate())")) = false
    ∧ claimStringLiteralDefault "(getutcdate())" = false
    ∧ defaultClause (some "(getutcdate())") = " DEFAULT \x27getutcdate\x27"
    ∧ defaultClause (some "(getutcdate())") ≠ ""
    ∧ (" DEFAULT \x27getutcdate\x27").data <:+:
        (build_create_table_mysql "t"
          [⟨"c", "datetime", none, none, none, true, false,
            some "(getutcdate())"⟩] []).data :=
  ⟨by decide, by decide, by decide, by decide, by decide, by decide,
    by decide⟩

/-- C6 amended: a non-empty default expression that is neither a
recognized timestamp spelling nor a newid spelling and is not accepted
by `float()` is not dropped: it is emitted as a single-quoted,
escape-processed string-literal DEFAULT clause, and DDL construction
never fails on it.  The only defaults yielding no DEFAULT clause are
absent or empty defaults and the newid spellings. -/
theorem default_drop_amended (raw : String) (hne : raw ≠ "")
    (hts : pyLower (pyStripParens (pyStrip raw)) ∉ tsSpellings)
    (hnid : pyLower (pyStripParens (pyStrip raw)) ∉ newidSpellings)
    (hf : ¬pyFloatParses (pyStripParens (pyStrip raw)) = true) :
    defaultClause (some raw) =
      " DEFAULT \x27" ++
        pyEscape (pyStripQuotes (pyLstripN (pyStripParens (pyStrip raw)))) ++
        "\x27"
    ∧ defaultClause (some raw) ≠ ""
    ∧ defaultClause none = ""
    ∧ defaultClause (some "") = ""
    ∧ (∀ r : String, r ≠ "" →
        pyLower (pyStripParens (pyStrip r)) ∈ newidSpellings →
        defaultClause (some r) = "") := by
  have hmain : defaultClause (some raw) =
      " DEFAULT \x27" ++
        pyEscape (pyStripQuotes (pyLstripN (pyStripParens (pyStrip raw)))) ++
        "\x27" := by
    simp only [defaultClause]
    rw [if_neg hne, if_neg hts, if_neg hnid, if_neg hf]
  refine ⟨hmain, ?_, rfl, rfl, ?_⟩
  · rw [hmain]
    intro e
    have hd := congrArg String.data e
    rw [String.data_append, String.data_append] at hd
    exact absurd (List.append_eq_nil.mp
      ((List.append_eq_nil.mp hd).1)).1 (by decide)
  · intro r hr hmem
    have hts2 : pyLower (pyStripParens (pyStrip r)) ∉ tsSpellings := by
      have hcases : pyLower (pyStripParens (pyStrip r)) = "newid" ∨
          pyLower (pyStripParens (pyStrip r)) = "newid()" := by
        simpa [newidSpellings] using hmem
      rcases hcases with h | h <;> rw [h] <;> decide
    simp only [defaultClause]
    rw [if_neg hr, if_neg hts2, if_pos hmem]

/-- Witness for `default_drop_amended` at the default `(getutcdate())`. -/
theorem default_drop_amended_witness :
    "(getutcdate())" ≠ ""
    ∧ defaultClause (some "(getutcdate())") =
        " DEFAULT \x27" ++
          pyEscape (pyStripQuotes (pyLstripN
            (pyStripParens (pyStrip "(getutcdate())")))) ++
          "\x27" :=
  ⟨by decide,
    (default_drop_amended "(getutcdate())" (by decide) (by decide)
      (by decide) (by decide)).1⟩

/-- C7 counterexample: in UPDATE mode with no source primary key, `main`
runs `fetch_mysql_pk_columns` — a metadata query against the target
database — before reaching the missing-primary-key validation exit, so
the failure does not precede every query against the target. -/
theorem update_validation_counterexample :
    mainUpdateTrace [] ["status"] 0 =
      [.srcColumnsQuery, .srcPkQuery, .tgtPkMetaQuery, .exitValidation]
    ∧ (mainUpdateTrace [] ["status"] 0).indexOf Ev.tgtPkMetaQuery <
        (mainUpdateTrace [] ["status"] 0).indexOf Ev.exitValidation :=
  ⟨by decide, by decide⟩

/-- C7 amended: requesting UPDATE mode on a source table with no primary
key exits with the validation error before any data-modifying statement
(execute/commit) runs against the target and before any data query runs
against the source; the only target interaction preceding the failure is
the read-only primary-key metadata query. -/
theorem update_validation_amended (pkSql upd : List String) (n : Nat)
    (hpk : pkSql = []) :
    mainUpdateTrace pkSql upd n =
      [.srcColumnsQuery, .srcPkQuery, .tgtPkMetaQuery, .exitValidation]
    ∧ Ev.tgtExecute ∉ mainUpdateTrace pkSql upd n
    ∧ Ev.tgtCommit ∉ mainUpdateTrace pkSql upd n
    ∧ Ev.srcDataQuery ∉ mainUpdateTrace pkSql upd n := by
  subst hpk
  refine ⟨by simp [mainUpdateTrace], ?_, ?_, ?_⟩ <;>
    simp [mainUpdateTrace]

/-- Witness for `update_validation_amended`. -/
theorem update_validation_amended_witness :
    ([] : List String) = []
    ∧ mainUpdateTrace [] ["status"] 0 =
        [.srcColumnsQuery, .srcPkQuery, .tgtPkMetaQuery, .exitValidation] :=
  ⟨rfl, (update_validation_amended [] ["status"] 0 rfl).1⟩

/-- After `lstrip("N")` the result cannot start with `N`. -/
theorem lstripN_no_leading (s : String) :
    (pyLstripN s).data.head? ≠ some 'N' := by
  show (s.data.dropWhile (fun c => decide (c = 'N'))).head? ≠ some 'N'
  have h := List.head?_dropWhile_not (fun c => decide (c = 'N')) s.data
  intro e
  rw [e] at h
  simp at h

/-- C10: a default expression in the fallthrough branch (not a timestamp
or newid spelling, not float-parseable) is emitted as the single-quoted
literal built from the paren-stripped raw text with every leading `N`
removed and surrounding apostrophes stripped; the emitted text never
starts with `N`, and in particular `(NULL)` becomes `DEFAULT 'ULL'` and
`NONE` becomes `DEFAULT 'ONE'`. -/
theorem default_literal_lstrip (raw : String) (hne : raw ≠ "")
    (hts : pyLower (pyStripParens (pyStrip raw)) ∉ tsSpellings)
    (hnid : pyLower (pyStripParens (pyStrip raw)) ∉ newidSpellings)
    (hf : ¬pyFloatParses (pyStripParens (pyStrip raw)) = true) :
    defaultClause (some raw) =
      " DEFAULT \x27" ++
        pyEscape (pyStripQuotes (pyLstripN (pyStripParens (pyStrip raw)))) ++
        "\x27"
    ∧ (pyLstripN (pyStripParens (pyStrip raw))).data.head? ≠ some 'N'
    ∧ defaultClause (some "(NULL)") = " DEFAULT \x27ULL\x27"
    ∧ defaultClause (some "NONE") = " DEFAULT \x27ONE\x27" := by
  refine ⟨?_, lstripN_no_leading _, by decide, by decide⟩
  simp only [defaultClause]
  rw [if_neg hne, if_neg hts, if_neg hnid, if_neg hf]

/-- Witness for `default_literal_lstrip` at the default `(NULL)`. -/
theorem default_literal_lstrip_witness :
    "(NULL)" ≠ ""
    ∧ defaultClause (some "(NULL)") =
        " DEFAULT \x27" ++
          pyEscape (pyStripQuotes (pyLstripN
            (pyStripParens (pyStrip "(NULL)")))) ++
          "\x27" :=
  ⟨by decide,
    (default_literal_lstrip "(NULL)" (by decide) (by decide) (by decide)
      (by decide)).1⟩

end Migrate
